import Mathlib

/- Shallow embedding of the CourseRate SG backend (courseratesg), a FastAPI +
   SQLAlchemy CRUD service for course/professor reviews.

   The embedding covers:
   * the `reviews` table rows and the SQL queries issued by
     `app/storage/review_storage.py` (filtering, ordering, pagination,
     aggregate statistics);
   * the in-memory `DataStore` of `app/storage/data_store.py` together with
     the statistics endpoints of `app/api/v1/endpoints/professors.py` and
     `app/api/v1/endpoints/courses.py`;
   * the review mutation endpoints of `app/api/v1/endpoints/reviews.py`
     (ownership checks on update/delete);
   * the JWT helpers of `app/api/v1/depends/auth.py` (JWKS caching and the
     mandatory/optional authentication dependencies).

   Numeric conventions: ratings are integers (the pydantic schema declares
   `int` fields with 0 <= rating <= 5, and migration 6f8ce485b8a1 converts the
   database columns to integers); SQL `AVG` and Python division are modelled
   over `Rat` (exact rationals in place of IEEE floats); timestamps are `Nat`
   (creation order); Python `str.lower` is the character-wise `pyLower`. -/

namespace CourseRate

/-- A row of the `reviews` table (`app/models/review.py` plus the
`course_name` column referenced by migration f46d02669629, and the
`created_at`/`updated_at` columns of `TimestampMixin`). The pydantic response
schema `Review` (`app/schemas/review.py`) exposes the same fields, with
`university` read from `university_name` via its validation alias. -/
structure ReviewRow where
  id : Nat
  user_id : Option String
  overall_rating : Int
  difficulty_rating : Int
  workload_rating : Int
  comment : Option String
  semester : String
  year : Int
  course_code : String
  course_name : String
  university_name : String
  professor_name : Option String
  created_at : Nat
  updated_at : Nat
deriving Repr, DecidableEq

/-- `ReviewStorage._get_semester_order`: the SQL `CASE` expression assigning a
sort rank to each semester string, with unknown semesters mapped to 0 by the
`else_` branch. -/
def semOrder (s : String) : Nat :=
  if s = "Summer Session" then 6
  else if s = "Special Term 2" then 5
  else if s = "Semester 2" then 4
  else if s = "Winter Session" then 3
  else if s = "Special Term 1" then 2
  else if s = "Semester 1" then 1
  else 0

/-- The ascending semester ranking as worded by the specification: Semester 1
< Special Term 1 < Winter Session < Semester 2 < Special Term 2 < Summer
Session, with any other value ranked below all six. -/
def semRankSpec (s : String) : Nat :=
  if s = "Semester 1" then 1
  else if s = "Special Term 1" then 2
  else if s = "Winter Session" then 3
  else if s = "Semester 2" then 4
  else if s = "Special Term 2" then 5
  else if s = "Summer Session" then 6
  else 0

/-- The comparison realised by `ORDER BY year DESC, semester_order DESC,
created_at DESC`: `a` may come no later than `b` in the output. -/
def revLE (a b : ReviewRow) : Bool :=
  if a.year = b.year then
    if semOrder a.semester = semOrder b.semester then
      decide (b.created_at ≤ a.created_at)
    else
      decide (semOrder b.semester < semOrder a.semester)
  else
    decide (b.year < a.year)

/-- Python truthiness of an optional string parameter (`if professor_name:`):
the filter is applied only when the value is present and non-empty. -/
def pyTruthy : Option String → Bool
  | none => false
  | some s => s != ""

/-- Python's `str.lower` / SQL `lower()`: each character mapped to lower
case (structural over the character list so that concrete instances
compute; the service's data is ASCII, where this agrees with Python). -/
def pyLower (s : String) : String := String.mk (s.data.map Char.toLower)

/-- The SQL condition `lower(column) == value.lower()` on a nullable column:
a NULL column value never matches. -/
def lowerEqOpt (value : String) (column : Option String) : Bool :=
  match column with
  | none => false
  | some v => pyLower v == pyLower value

/-- The conjunction of `WHERE` clauses built by
`ReviewStorage.filter_reviews`: each of the three name filters is added only
when truthy (non-None and non-empty), the `user_id` filter whenever the
parameter is not None (exact match, the column being nullable). -/
def rowMatches (professor_name course_code university user_id : Option String)
    (r : ReviewRow) : Bool :=
  (if pyTruthy professor_name then
    lowerEqOpt (professor_name.getD "") r.professor_name
  else true)
  && (if pyTruthy course_code then
    pyLower r.course_code == pyLower (course_code.getD "")
  else true)
  && (if pyTruthy university then
    pyLower r.university_name == pyLower (university.getD "")
  else true)
  && (match user_id with
  | none => true
  | some u => r.user_id == some u)

/-- `ReviewStorage.get_all`: all rows ordered by year desc, semester order
desc, created_at desc, then `OFFSET skip LIMIT limit`. `List.mergeSort`
determinises the tie order left open by SQL. -/
def get_all (reviews : List ReviewRow) (skip limit : Nat) : List ReviewRow :=
  ((reviews.mergeSort revLE).drop skip).take limit

/-- `ReviewStorage.filter_reviews`: the filtered rows in the same order, then
`OFFSET skip LIMIT limit`. -/
def filter_reviews (reviews : List ReviewRow)
    (professor_name course_code university user_id : Option String)
    (skip limit : Nat) : List ReviewRow :=
  (((reviews.filter (rowMatches professor_name course_code university user_id)).mergeSort
      revLE).drop skip).take limit

/-- Result shape of `ReviewStorage.get_stats`. -/
structure Stats where
  avg_overall_rating : Option Rat
  avg_difficulty_rating : Option Rat
  avg_workload_rating : Option Rat
  review_count : Nat
deriving Repr, DecidableEq

/-- SQL `AVG` over an integer column: NULL on an empty set, else the exact
arithmetic mean. -/
def sqlAvg (xs : List Int) : Option Rat :=
  if xs.length = 0 then none
  else some ((xs.sum : Rat) / (xs.length : Rat))

/-- The Python conversion `float(x) if x else None` applied to the `AVG`
result: both SQL NULL and the number 0 are falsy and give None. -/
def pyFloatOrNone : Option Rat → Option Rat
  | none => none
  | some q => if q = 0 then none else some q

/-- `ReviewStorage.get_stats`: aggregate `AVG`/`COUNT` over the rows matching
the (truthy) filters, with each average passed through
`float(x) if x else None`. -/
def get_stats (reviews : List ReviewRow)
    (professor_name course_code university : Option String) : Stats :=
  let m := reviews.filter (rowMatches professor_name course_code university none)
  { avg_overall_rating := pyFloatOrNone (sqlAvg (m.map (·.overall_rating)))
    avg_difficulty_rating := pyFloatOrNone (sqlAvg (m.map (·.difficulty_rating)))
    avg_workload_rating := pyFloatOrNone (sqlAvg (m.map (·.workload_rating)))
    review_count := m.length }

/-- The filter predicate as worded by the (amended) claims: a provided
non-empty filter must match case-insensitively (professor on a nullable
column, course code and university on non-null columns); an empty-string name
filter is treated as absent; a provided `user_id` must match exactly. -/
def matchesAllFilters (professor_name course_code university user_id : Option String)
    (r : ReviewRow) : Bool :=
  (match professor_name with
  | none => true
  | some f =>
    f == "" || (match r.professor_name with
      | none => false
      | some v => pyLower v == pyLower f))
  && (match course_code with
  | none => true
  | some f => f == "" || pyLower r.course_code == pyLower f)
  && (match university with
  | none => true
  | some f => f == "" || pyLower r.university_name == pyLower f)
  && (match user_id with
  | none => true
  | some u => r.user_id == some u)

/-- The descending listing order as the claims word it: later year first,
then higher spec semester rank first, then later creation first. -/
def specAfter (a b : ReviewRow) : Prop :=
  b.year < a.year ∨
    (a.year = b.year ∧
      (semRankSpec b.semester < semRankSpec a.semester ∨
        (semRankSpec a.semester = semRankSpec b.semester ∧
          b.created_at ≤ a.created_at)))

/-- The exact arithmetic mean used by the claims: sum of the ratings over the
number of matching reviews. -/
def specMean (xs : List Int) : Rat := (xs.sum : Rat) / (xs.length : Rat)

/-- A concrete review whose ratings are all 0 (0 is a legal rating: the
schema enforces 0 <= rating <= 5). -/
def rowZero : ReviewRow :=
  { id := 1, user_id := none, overall_rating := 0, difficulty_rating := 0,
    workload_rating := 0, comment := none, semester := "Semester 1",
    year := 2024, course_code := "CS101", course_name := "CS101",
    university_name := "NUS", professor_name := some "Alice",
    created_at := 0, updated_at := 0 }

/-- `ReviewUpdate` (`app/schemas/review.py`): every field optional; the
storage layers apply only the fields actually set
(`model_dump(exclude_unset=True)`). An outer `none` means "not set". For
`comment` and `professor_name` (nullable stored fields) a set value may
itself be null, hence the nested option. -/
structure ReviewUpdate where
  overall_rating : Option Int := none
  difficulty_rating : Option Int := none
  workload_rating : Option Int := none
  comment : Option (Option String) := none
  semester : Option String := none
  year : Option Int := none
  professor_name : Option (Option String) := none
deriving Repr, DecidableEq

/-- The field assignments performed by `ReviewStorage.update` on the selected
row: `setattr` for each set field, then `updated_at = datetime.utcnow()`. -/
def applyUpdate (r : ReviewRow) (p : ReviewUpdate) (now : Nat) : ReviewRow :=
  { r with
    overall_rating := p.overall_rating.getD r.overall_rating
    difficulty_rating := p.difficulty_rating.getD r.difficulty_rating
    workload_rating := p.workload_rating.getD r.workload_rating
    comment := p.comment.getD r.comment
    semester := p.semester.getD r.semester
    year := p.year.getD r.year
    professor_name := p.professor_name.getD r.professor_name
    updated_at := now }

/-- `SELECT ... WHERE id == review_id` via `session.scalar`: the first row
with the given id, if any (`ReviewStorage.get`). -/
def getRow (store : List ReviewRow) (review_id : Nat) : Option ReviewRow :=
  store.find? (fun r => r.id == review_id)

/-- Replace the first element satisfying `p` by its image under `f` (the SQL
session mutates the single selected row in place). -/
def updateFirst {α : Type} (p : α → Bool) (f : α → α) : List α → List α
  | [] => []
  | a :: as => if p a then f a :: as else a :: updateFirst p f as

/-- `ReviewStorage.update`: select the row by id; if absent return None and
leave the table unchanged, else apply the set fields and stamp
`updated_at`. -/
def storageUpdate (store : List ReviewRow) (review_id : Nat)
    (review_in : ReviewUpdate) (now : Nat) : Option ReviewRow × List ReviewRow :=
  match getRow store review_id with
  | none => (none, store)
  | some r =>
    (some (applyUpdate r review_in now),
      updateFirst (fun x => x.id == review_id)
        (fun x => applyUpdate x review_in now) store)

/-- `ReviewStorage.delete`: select the row by id; if absent return False and
leave the table unchanged, else delete it. -/
def storageDelete (store : List ReviewRow) (review_id : Nat) :
    Bool × List ReviewRow :=
  match getRow store review_id with
  | none => (false, store)
  | some _ => (true, store.eraseP (fun r => r.id == review_id))

/-- `PUT /reviews/{review_id}` (`update_review` in
`app/api/v1/endpoints/reviews.py`): 404 if the review does not exist, 403 if
the caller is not its owner, otherwise the storage update is applied. `uid`
is `current_user["user_id"]`. The impossible inner `none` branch (the row
vanished between the two selects of the same transaction) is a serialization
failure, 500. -/
def update_review_endpoint (store : List ReviewRow) (review_id : Nat)
    (review_in : ReviewUpdate) (uid : String) (now : Nat) :
    Except Nat ReviewRow × List ReviewRow :=
  match getRow store review_id with
  | none => (.error 404, store)
  | some r =>
    if r.user_id ≠ some uid then (.error 403, store)
    else
      match storageUpdate store review_id review_in now with
      | (some r2, store2) => (.ok r2, store2)
      | (none, store2) => (.error 500, store2)

/-- `DELETE /reviews/{review_id}` (`delete_review` in
`app/api/v1/endpoints/reviews.py`): 404 if the review does not exist, 403 if
the caller is not its owner, otherwise the storage delete is applied (204). -/
def delete_review_endpoint (store : List ReviewRow) (review_id : Nat)
    (uid : String) : Except Nat Unit × List ReviewRow :=
  match getRow store review_id with
  | none => (.error 404, store)
  | some r =>
    if r.user_id ≠ some uid then (.error 403, store)
    else (.ok (), (storageDelete store review_id).2)

/-- A concrete owned review (owner `"u1"`). -/
def rowOwned : ReviewRow :=
  { rowZero with id := 7, user_id := some "u1", overall_rating := 4 }

/-- The pydantic `Review` held by the in-memory `DataStore`
(`app/schemas/review.py`): unlike the database row, `course_name` is
optional and the university field is named `university`. -/
structure PyReview where
  id : Nat
  user_id : Option String
  overall_rating : Int
  difficulty_rating : Int
  workload_rating : Int
  comment : Option String
  semester : String
  year : Int
  course_code : String
  course_name : Option String
  university : String
  professor_name : Option String
  created_at : Nat
  updated_at : Nat
deriving Repr, DecidableEq

/-- `ReviewCreate` (`app/schemas/review.py`). -/
structure ReviewCreate where
  overall_rating : Int
  difficulty_rating : Int
  workload_rating : Int
  comment : Option String
  semester : String
  year : Int
  course_code : String
  course_name : Option String
  university : String
  professor_name : Option String
deriving Repr, DecidableEq

/-- `University` response schema. -/
structure University where
  id : Nat
  name : String
  review_count : Nat
deriving Repr, DecidableEq

/-- `UniversityCreate` schema. -/
structure UniversityCreate where
  name : String
deriving Repr, DecidableEq

/-- `Professor` response schema. -/
structure Professor where
  id : Nat
  name : String
  university_id : Nat
  university : String
  review_count : Nat
deriving Repr, DecidableEq

/-- `ProfessorCreate` schema. -/
structure ProfessorCreate where
  name : String
  university_id : Nat
deriving Repr, DecidableEq

/-- `Course` response schema. -/
structure Course where
  id : Nat
  code : String
  name : String
  university_id : Nat
  university : String
  review_count : Nat
deriving Repr, DecidableEq

/-- `CourseCreate` schema. -/
structure CourseCreate where
  code : String
  name : String
  university_id : Nat
deriving Repr, DecidableEq

/-- The in-memory `DataStore` (`app/storage/data_store.py`): four separate
dicts keyed by integer id plus the next-id counters. Since every stored
entity carries its own id equal to its dict key, each dict is modelled as the
(insertion-ordered) list of its values. -/
structure DataStore where
  universities : List University
  professors : List Professor
  courses : List Course
  reviews : List PyReview
  next_university_id : Nat
  next_professor_id : Nat
  next_course_id : Nat
  next_review_id : Nat
deriving Repr, DecidableEq

/-- The state produced by `DataStore.clear_all_data` (and the state of
`__init__` before `_initialize_sample_data` runs). -/
def dsEmpty : DataStore :=
  { universities := [], professors := [], courses := [], reviews := []
    next_university_id := 1, next_professor_id := 1, next_course_id := 1
    next_review_id := 1 }

/-- `DataStore.get_all_reviews`. -/
def DataStore.get_all_reviews (ds : DataStore) : List PyReview := ds.reviews

/-- `DataStore.get_review`. -/
def DataStore.get_review (ds : DataStore) (review_id : Nat) : Option PyReview :=
  ds.reviews.find? (fun r => r.id == review_id)

/-- `DataStore.create_review`: assemble the review from the payload, the next
id, the optional user id and the current timestamps, and store it under the
new id. -/
def DataStore.create_review (ds : DataStore) (review_in : ReviewCreate)
    (user_id : Option String) (now : Nat) : PyReview × DataStore :=
  let review : PyReview :=
    { id := ds.next_review_id, user_id := user_id
      overall_rating := review_in.overall_rating
      difficulty_rating := review_in.difficulty_rating
      workload_rating := review_in.workload_rating
      comment := review_in.comment, semester := review_in.semester
      year := review_in.year, course_code := review_in.course_code
      course_name := review_in.course_name, university := review_in.university
      professor_name := review_in.professor_name
      created_at := now, updated_at := now }
  (review,
    { ds with reviews := ds.reviews ++ [review]
              next_review_id := ds.next_review_id + 1 })

/-- The merge `{**review.model_dump(), **update_data}` of
`DataStore.update_review` followed by the `updated_at` stamp: set fields
override, everything else (including the id) is kept. -/
def applyUpdatePy (r : PyReview) (p : ReviewUpdate) (now : Nat) : PyReview :=
  { r with
    overall_rating := p.overall_rating.getD r.overall_rating
    difficulty_rating := p.difficulty_rating.getD r.difficulty_rating
    workload_rating := p.workload_rating.getD r.workload_rating
    comment := p.comment.getD r.comment
    semester := p.semester.getD r.semester
    year := p.year.getD r.year
    professor_name := p.professor_name.getD r.professor_name
    updated_at := now }

/-- `DataStore.update_review`: None (store unchanged) when the id is absent;
otherwise the rebuilt review replaces the stored one under the same key. -/
def DataStore.update_review (ds : DataStore) (review_id : Nat)
    (review_in : ReviewUpdate) (now : Nat) : Option PyReview × DataStore :=
  match ds.reviews.find? (fun r => r.id == review_id) with
  | none => (none, ds)
  | some r =>
    (some (applyUpdatePy r review_in now),
      { ds with reviews := (updateFirst (fun x => x.id == review_id)
          (fun x => applyUpdatePy x review_in now) ds.reviews) })

/-- `DataStore.delete_review`. -/
def DataStore.delete_review (ds : DataStore) (review_id : Nat) :
    Bool × DataStore :=
  if ds.reviews.any (fun r => r.id == review_id) then
    (true, { ds with reviews := ds.reviews.eraseP (fun r => r.id == review_id) })
  else (false, ds)

/-- `DataStore.get_all_universities`. -/
def DataStore.get_all_universities (ds : DataStore) : List University :=
  ds.universities

/-- `DataStore.get_university`. -/
def DataStore.get_university (ds : DataStore) (university_id : Nat) :
    Option University :=
  ds.universities.find? (fun u => u.id == university_id)

/-- `DataStore.create_university`. -/
def DataStore.create_university (ds : DataStore) (u_in : UniversityCreate) :
    University × DataStore :=
  let u : University := { id := ds.next_university_id, name := u_in.name
                          review_count := 0 }
  (u, { ds with universities := ds.universities ++ [u]
                next_university_id := ds.next_university_id + 1 })

/-- `DataStore.get_all_professors`. -/
def DataStore.get_all_professors (ds : DataStore) : List Professor :=
  ds.professors

/-- `DataStore.get_professor`. -/
def DataStore.get_professor (ds : DataStore) (professor_id : Nat) :
    Option Professor :=
  ds.professors.find? (fun p => p.id == professor_id)

/-- `DataStore.create_professor`: None models the `ValueError` raised when
the referenced university does not exist. -/
def DataStore.create_professor (ds : DataStore) (p_in : ProfessorCreate) :
    Option (Professor × DataStore) :=
  match ds.get_university p_in.university_id with
  | none => none
  | some u =>
    let p : Professor := { id := ds.next_professor_id, name := p_in.name
                           university_id := p_in.university_id
                           university := u.name, review_count := 0 }
    some (p, { ds with professors := ds.professors ++ [p]
                       next_professor_id := ds.next_professor_id + 1 })

/-- `DataStore.get_all_courses`. -/
def DataStore.get_all_courses (ds : DataStore) : List Course := ds.courses

/-- `DataStore.get_course`. -/
def DataStore.get_course (ds : DataStore) (course_id : Nat) : Option Course :=
  ds.courses.find? (fun c => c.id == course_id)

/-- `DataStore.create_course`: None models the `ValueError` raised when the
referenced university does not exist. -/
def DataStore.create_course (ds : DataStore) (c_in : CourseCreate) :
    Option (Course × DataStore) :=
  match ds.get_university c_in.university_id with
  | none => none
  | some u =>
    let c : Course := { id := ds.next_course_id, code := c_in.code
                        name := c_in.name, university_id := c_in.university_id
                        university := u.name, review_count := 0 }
    some (c, { ds with courses := ds.courses ++ [c]
                       next_course_id := ds.next_course_id + 1 })

/-- A reachable store with one university and one course but no review at
all: `clear_all_data`, then `create_university`, then `create_course`. -/
def dsCex : DataStore :=
  match (dsEmpty.create_university { name := "NUS" }).2.create_course
      { code := "CS101", name := "Intro to CS", university_id := 1 } with
  | some (_, ds) => ds
  | none => dsEmpty

/-- The `rating_distribution` dict with keys "5" down to "1". -/
structure Distribution where
  d5 : Nat
  d4 : Nat
  d3 : Nat
  d2 : Nat
  d1 : Nat
deriving Repr, DecidableEq

/-- One iteration of the distribution loop: `str(int(overall_rating))` is
looked up among the keys "1".."5" and the bucket incremented when present
(ratings outside 1..5, e.g. 0, fall into no bucket). -/
def distStep (acc : Distribution) (rating : Int) : Distribution :=
  if rating = 5 then { acc with d5 := acc.d5 + 1 }
  else if rating = 4 then { acc with d4 := acc.d4 + 1 }
  else if rating = 3 then { acc with d3 := acc.d3 + 1 }
  else if rating = 2 then { acc with d2 := acc.d2 + 1 }
  else if rating = 1 then { acc with d1 := acc.d1 + 1 }
  else acc

/-- The distribution loop of `get_professor_stats`/`get_course_stats`. -/
def computeDist (rs : List PyReview) : Distribution :=
  rs.foldl (fun acc r => distStep acc r.overall_rating) ⟨0, 0, 0, 0, 0⟩

/-- The review filter of the professor endpoints:
`review.professor_name and review.professor_name.lower() == professor.name.lower()`
(truthiness excludes both None and the empty string). -/
def profReviewMatches (name : String) (r : PyReview) : Bool :=
  match r.professor_name with
  | none => false
  | some n => n != "" && (pyLower n == pyLower name)

/-- The review filter of the course endpoints: case-insensitive match on both
course code and university. -/
def courseReviewMatches (code university : String) (r : PyReview) : Bool :=
  pyLower r.course_code == pyLower code
    && pyLower r.university == pyLower university

/-- Floor of a rational (exact, computable). -/
def ratFloor (q : Rat) : Int := q.num.fdiv q.den

/-- Round-half-to-even to the nearest integer, the rounding of Python's
built-in `round`. -/
def roundHalfEven (q : Rat) : Int :=
  let f := ratFloor q
  if q - (f : Rat) < 1 / 2 then f
  else if (1 : Rat) / 2 < q - (f : Rat) then f + 1
  else if f % 2 = 0 then f else f + 1

/-- Python's `round(x, 2)` over exact rationals. -/
def pyRound2 (q : Rat) : Rat := (roundHalfEven (q * 100) : Rat) / 100

/-- Response shape of `GET /professors/{id}/stats`. -/
structure ProfStats where
  professor_id : Nat
  professor_name : String
  university : String
  total_reviews : Nat
  average_overall_rating : Option Rat
  average_difficulty_rating : Option Rat
  average_workload_rating : Option Rat
  rating_distribution : Distribution
deriving Repr, DecidableEq

/-- Response shape of `GET /courses/{id}/stats` (`course_name` is reported as
the course code, "Using code as name for now"). -/
structure CourseStats where
  course_id : Nat
  course_code : String
  course_name : String
  university : String
  total_reviews : Nat
  average_overall_rating : Option Rat
  average_difficulty_rating : Option Rat
  average_workload_rating : Option Rat
  rating_distribution : Distribution
  professors : List String
deriving Repr, DecidableEq

/-- `GET /professors/{professor_id}/stats`
(`app/api/v1/endpoints/professors.py`): 404 when the professor id is absent;
otherwise averages (rounded to 2 decimal places), count and distribution over
the reviews naming this professor, with the all-None/zero shape when no
review matches. -/
def get_professor_stats (ds : DataStore) (professor_id : Nat) :
    Except Nat ProfStats :=
  match ds.get_professor professor_id with
  | none => .error 404
  | some prof =>
    let m := ds.reviews.filter (profReviewMatches prof.name)
    if m.length = 0 then
      .ok { professor_id := professor_id, professor_name := prof.name
            university := prof.university, total_reviews := 0
            average_overall_rating := none, average_difficulty_rating := none
            average_workload_rating := none
            rating_distribution := ⟨0, 0, 0, 0, 0⟩ }
    else
      .ok { professor_id := professor_id, professor_name := prof.name
            university := prof.university, total_reviews := m.length
            average_overall_rating :=
              some (pyRound2 ((((m.map (·.overall_rating)).sum : Int) : Rat) / (m.length : Rat)))
            average_difficulty_rating :=
              some (pyRound2 ((((m.map (·.difficulty_rating)).sum : Int) : Rat) / (m.length : Rat)))
            average_workload_rating :=
              some (pyRound2 ((((m.map (·.workload_rating)).sum : Int) : Rat) / (m.length : Rat)))
            rating_distribution := computeDist m }

/-- The unique professor names of the matching reviews, sorted (`sorted(set(...))`). -/
def uniqueSortedProfessors (m : List PyReview) : List String :=
  (((m.filterMap (fun r => r.professor_name)).filter (fun n => n != "")).dedup).mergeSort
    (fun a b => decide (a ≤ b))

/-- `GET /courses/{course_id}/stats` (`app/api/v1/endpoints/courses.py`). -/
def get_course_stats (ds : DataStore) (course_id : Nat) :
    Except Nat CourseStats :=
  match ds.get_course course_id with
  | none => .error 404
  | some course =>
    let m := ds.reviews.filter (courseReviewMatches course.code course.university)
    if m.length = 0 then
      .ok { course_id := course_id, course_code := course.code
            course_name := course.code, university := course.university
            total_reviews := 0
            average_overall_rating := none, average_difficulty_rating := none
            average_workload_rating := none
            rating_distribution := ⟨0, 0, 0, 0, 0⟩, professors := [] }
    else
      .ok { course_id := course_id, course_code := course.code
            course_name := course.code, university := course.university
            total_reviews := m.length
            average_overall_rating :=
              some (pyRound2 ((((m.map (·.overall_rating)).sum : Int) : Rat) / (m.length : Rat)))
            average_difficulty_rating :=
              some (pyRound2 ((((m.map (·.difficulty_rating)).sum : Int) : Rat) / (m.length : Rat)))
            average_workload_rating :=
              some (pyRound2 ((((m.map (·.workload_rating)).sum : Int) : Rat) / (m.length : Rat)))
            rating_distribution := computeDist m
            professors := uniqueSortedProfessors m }

/-- A concrete in-memory review for witnesses: professor Alice, ratings 4. -/
def pyRev4 : PyReview :=
  { id := 1, user_id := none, overall_rating := 4, difficulty_rating := 4
    workload_rating := 4, comment := none, semester := "Semester 1"
    year := 2024, course_code := "CS101", course_name := some "Intro"
    university := "NUS", professor_name := some "Alice"
    created_at := 0, updated_at := 0 }

/-- A concrete professor record. -/
def profAlice : Professor :=
  { id := 1, name := "Alice", university_id := 1, university := "NUS"
    review_count := 0 }

/-- A concrete course record. -/
def courseCS : Course :=
  { id := 1, code := "CS101", name := "Intro", university_id := 1
    university := "NUS", review_count := 0 }

/-- A concrete populated store for witnesses. -/
def dsStats : DataStore :=
  { universities := [{ id := 1, name := "NUS", review_count := 0 }]
    professors := [profAlice]
    courses := [courseCS]
    reviews := [pyRev4]
    next_university_id := 2, next_professor_id := 2, next_course_id := 2
    next_review_id := 2 }

/-- The empty update payload (no field set). -/
def noUpdate : ReviewUpdate := {}

/-- A concrete review with no owner (`user_id` NULL, incognito review). -/
def rowAnon : ReviewRow := { rowZero with id := 9, user_id := none }

/-- The store after `clear_all_data` and one `create_university`. -/
def dsUni : DataStore := (dsEmpty.create_university { name := "NUS" }).2

/-- A concrete review creation payload. -/
def rcSample : ReviewCreate :=
  { overall_rating := 4, difficulty_rating := 4, workload_rating := 4
    comment := none, semester := "Semester 1", year := 2024
    course_code := "CS101", course_name := some "Intro", university := "NUS"
    professor_name := some "Alice" }

/-- A JSON Web Key of the JWKS document (only the `kid` is inspected by the
code; the remaining fields are opaque here). -/
structure JWK where
  kid : Option String
  body : String
deriving Repr, DecidableEq

/-- The module-level cache `_cognito_keys_cache` of
`app/api/v1/depends/auth.py`. -/
structure KeysState where
  cache : Option (List JWK)
deriving Repr, DecidableEq

/-- `get_cognito_public_keys`: return the cache when set; otherwise 500 when
the Cognito settings are missing; otherwise fetch the JWKS document (`fetched
= none` models a `requests.RequestException`, giving 500) and cache its
`keys` list. -/
def get_cognito_public_keys (st : KeysState) (cfgOk : Bool)
    (fetched : Option (List JWK)) : Except Nat (List JWK) × KeysState :=
  match st.cache with
  | some keys => (.ok keys, st)
  | none =>
    if cfgOk = false then (.error 500, st)
    else
      match fetched with
      | some keys => (.ok keys, { cache := some keys })
      | none => (.error 500, st)

/-- The decoded JWT payload fields read by `get_current_user`. -/
structure TokenPayload where
  sub : Option String
  email : Option String
  name : Option String
  email_verified : Bool
  username : Option String
deriving Repr, DecidableEq

/-- The user-information dictionary returned by `get_current_user` (after
the non-empty `user_id` check has passed). -/
structure UserInfo where
  user_id : String
  email : Option String
  name : Option String
  email_verified : Bool
  username : Option String
deriving Repr, DecidableEq

/-- Python's `s.split(maxsplit=1)` unpacked into exactly two parts: None
models the `ValueError` when fewer than two whitespace-separated chunks
exist. -/
def splitMax1 (s : String) : Option (String × String) :=
  let cs := s.data.dropWhile (fun c => c.isWhitespace)
  let scheme := cs.takeWhile (fun c => !c.isWhitespace)
  let rest := ((cs.dropWhile (fun c => !c.isWhitespace)).dropWhile
    (fun c => c.isWhitespace))
  if scheme.isEmpty then none
  else if rest.isEmpty then none
  else some (String.mk scheme, String.mk rest)

/-- `get_current_user`: 401 on a missing or falsy header, a malformed
`Bearer` line, a failed token verification (the `verify` oracle stands for
`verify_cognito_token`, whose every failure is an HTTP error), or a missing
or empty `sub`; otherwise the user-information dictionary. -/
def get_current_user (authorization : Option String)
    (verify : String → Except Nat TokenPayload) : Except Nat UserInfo :=
  match authorization with
  | none => .error 401
  | some a =>
    if a = "" then .error 401
    else
      match splitMax1 a with
      | none => .error 401
      | some (scheme, token) =>
        if pyLower scheme ≠ "bearer" then .error 401
        else
          match verify token with
          | .error e => .error e
          | .ok payload =>
            match payload.sub with
            | none => .error 401
            | some s =>
              if s = "" then .error 401
              else
                .ok { user_id := s, email := payload.email
                      name := payload.name.orElse (fun _ => payload.email)
                      email_verified := payload.email_verified
                      username := payload.username.orElse (fun _ => payload.email) }

/-- `get_optional_user`: None on a falsy header, otherwise the result of
`get_current_user` with every `HTTPException` converted to None. -/
def get_optional_user (authorization : Option String)
    (verify : String → Except Nat TokenPayload) : Option UserInfo :=
  match authorization with
  | none => none
  | some a =>
    if a = "" then none
    else
      match get_current_user (some a) verify with
      | .ok u => some u
      | .error _ => none

/- ------------------------------------------------------------------ -/
/- Theorems                                                            -/
/- ------------------------------------------------------------------ -/

theorem semOrder_eq_semRankSpec (s : String) : semOrder s = semRankSpec s := by
  unfold semOrder semRankSpec
  split_ifs <;> simp_all

theorem revLE_trans (a b c : ReviewRow) :
    revLE a b → revLE b c → revLE a c := by
  unfold revLE
  split_ifs <;> simp_all <;> omega

theorem revLE_total (a b : ReviewRow) : revLE a b || revLE b a := by
  unfold revLE
  split_ifs <;> simp_all <;> omega

theorem profClause_eq (pn : Option String) (r : ReviewRow) :
    (if pyTruthy pn then lowerEqOpt (pn.getD "") r.professor_name else true)
      = (match pn with
        | none => true
        | some f => f == "" || (match r.professor_name with
          | none => false
          | some v => pyLower v == pyLower f)) := by
  rcases pn with _ | f
  · rfl
  · by_cases hf : f = "" <;> rcases hp : r.professor_name with _ | v <;>
      simp [pyTruthy, lowerEqOpt, hf, hp]

theorem strClause_eq (filt : Option String) (field : String) :
    (if pyTruthy filt then pyLower field == pyLower (filt.getD "") else true)
      = (match filt with
        | none => true
        | some f => f == "" || pyLower field == pyLower f) := by
  rcases filt with _ | f
  · rfl
  · by_cases hf : f = "" <;> simp [pyTruthy, hf]

theorem rowMatches_eq (pn cc un uid : Option String) (r : ReviewRow) :
    rowMatches pn cc un uid r = matchesAllFilters pn cc un uid r := by
  unfold rowMatches matchesAllFilters
  rw [profClause_eq pn r, strClause_eq cc r.course_code,
    strClause_eq un r.university_name]

theorem revLE_imp_specAfter (a b : ReviewRow) :
    revLE a b = true → specAfter a b := by
  unfold revLE specAfter
  simp only [semOrder_eq_semRankSpec]
  split_ifs <;> simp_all <;> omega

theorem pairwise_specAfter_of_sorted_slice (l : List ReviewRow) (skip limit : Nat) :
    (((l.mergeSort revLE).drop skip).take limit).Pairwise specAfter := by
  have h1 : (l.mergeSort revLE).Pairwise (fun a b => revLE a b) :=
    List.sorted_mergeSort (fun a b c => revLE_trans a b c) (fun a b => revLE_total a b) l
  have hsub : List.Sublist (((l.mergeSort revLE).drop skip).take limit)
      (l.mergeSort revLE) :=
    (List.take_sublist _ _).trans (List.drop_sublist _ _)
  exact (h1.sublist hsub).imp (fun h => revLE_imp_specAfter _ _ h)

/-- C2: every review listing (`get_all` and `filter_reviews`) comes back
sorted by year descending, then by the fixed semester order (ascending
Semester 1 < Special Term 1 < Winter Session < Semester 2 < Special Term 2 <
Summer Session, applied descending), then by `created_at` descending; the SQL
`CASE` rank agrees with that order everywhere, and any semester outside the
six recognized values ranks 0, hence after all recognized semesters within
its year. -/
theorem C2_listing_sorted (reviews : List ReviewRow) (skip limit : Nat)
    (pn cc un uid : Option String) :
    (get_all reviews skip limit).Pairwise specAfter
    ∧ (filter_reviews reviews pn cc un uid skip limit).Pairwise specAfter
    ∧ (∀ s, semOrder s = semRankSpec s)
    ∧ semRankSpec "Semester 1" = 1 ∧ semRankSpec "Special Term 1" = 2
    ∧ semRankSpec "Winter Session" = 3 ∧ semRankSpec "Semester 2" = 4
    ∧ semRankSpec "Special Term 2" = 5 ∧ semRankSpec "Summer Session" = 6
    ∧ (∀ s, s ∉ ["Semester 1", "Special Term 1", "Winter Session",
        "Semester 2", "Special Term 2", "Summer Session"] → semRankSpec s = 0) := by
  refine ⟨pairwise_specAfter_of_sorted_slice _ _ _,
    pairwise_specAfter_of_sorted_slice _ _ _,
    semOrder_eq_semRankSpec, rfl, rfl, rfl, rfl, rfl, rfl, ?_⟩
  intro s hs
  unfold semRankSpec
  split_ifs <;> simp_all

theorem C2_listing_sorted_witness :
    (get_all [] 0 100).Pairwise specAfter ∧ semRankSpec "Reading Week" = 0 :=
  ⟨(C2_listing_sorted [] 0 100 none none none none).1,
    (C2_listing_sorted [] 0 100 none none none none).2.2.2.2.2.2.2.2.2
      "Reading Week" (by decide)⟩

/-- C3 counterexample: with a single matching review whose ratings are all 0,
`get_stats` reports `review_count = 1` but `avg_overall_rating = None`
(`float(x) if x else None` treats the average 0 as falsy), so the average is
not None exactly when no review matches. -/
theorem C3_counterexample :
    (get_stats [rowZero] none none none).review_count = 1
    ∧ (get_stats [rowZero] none none none).avg_overall_rating = none
    ∧ ¬(((get_stats [rowZero] none none none).avg_overall_rating = none) ↔
        (get_stats [rowZero] none none none).review_count = 0) := by
  have hfil : List.filter (rowMatches none none none none) [rowZero] = [rowZero] := by
    decide
  have hcnt : (get_stats [rowZero] none none none).review_count = 1 := by
    simp [get_stats, hfil]
  have hsql : sqlAvg ([rowZero].map (fun r => r.overall_rating)) = some 0 := by
    have hmap : [rowZero].map (fun r => r.overall_rating) = [0] := by decide
    rw [hmap]
    simp [sqlAvg]
  have havg : (get_stats [rowZero] none none none).avg_overall_rating = none := by
    simp only [get_stats, hfil, hsql, pyFloatOrNone]
    simp
  refine ⟨hcnt, havg, fun hiff => ?_⟩
  rw [hcnt] at hiff
  simp [havg] at hiff

/-- C3 (amended): `get_stats` counts exactly the reviews matching all
provided non-empty filters case-insensitively (an empty-string filter is
treated as absent); each average equals the arithmetic mean of the
corresponding rating over the matching reviews whenever that mean is nonzero,
and is None when no review matches or the mean equals 0. -/
theorem C3_stats (reviews : List ReviewRow) (pn cc un : Option String) :
    (get_stats reviews pn cc un).review_count
        = (reviews.filter (matchesAllFilters pn cc un none)).length
    ∧ ((reviews.filter (matchesAllFilters pn cc un none)).length = 0 →
        (get_stats reviews pn cc un).avg_overall_rating = none
        ∧ (get_stats reviews pn cc un).avg_difficulty_rating = none
        ∧ (get_stats reviews pn cc un).avg_workload_rating = none)
    ∧ (0 < (reviews.filter (matchesAllFilters pn cc un none)).length →
        ((get_stats reviews pn cc un).avg_overall_rating =
          if specMean ((reviews.filter (matchesAllFilters pn cc un none)).map
              (·.overall_rating)) = 0 then none
          else some (specMean ((reviews.filter (matchesAllFilters pn cc un none)).map
              (·.overall_rating))))
        ∧ ((get_stats reviews pn cc un).avg_difficulty_rating =
          if specMean ((reviews.filter (matchesAllFilters pn cc un none)).map
              (·.difficulty_rating)) = 0 then none
          else some (specMean ((reviews.filter (matchesAllFilters pn cc un none)).map
              (·.difficulty_rating))))
        ∧ ((get_stats reviews pn cc un).avg_workload_rating =
          if specMean ((reviews.filter (matchesAllFilters pn cc un none)).map
              (·.workload_rating)) = 0 then none
          else some (specMean ((reviews.filter (matchesAllFilters pn cc un none)).map
              (·.workload_rating))))) := by
  have hm : reviews.filter (rowMatches pn cc un none)
      = reviews.filter (matchesAllFilters pn cc un none) :=
    List.filter_congr (fun a _ => rowMatches_eq pn cc un none a)
  unfold get_stats
  rw [hm]
  refine ⟨rfl, ?_, ?_⟩
  · intro h0
    simp [sqlAvg, pyFloatOrNone, h0, List.length_map]
  · intro hpos
    refine ⟨?_, ?_, ?_⟩ <;>
    · simp only [sqlAvg, List.length_map]
      rw [if_neg (by omega)]
      simp only [pyFloatOrNone, specMean, List.length_map]

theorem C3_stats_witness :
    (get_stats [rowZero] none none none).review_count
        = ([rowZero].filter (matchesAllFilters none none none none)).length
    ∧ (get_stats [rowZero] none none none).avg_overall_rating =
        (if specMean (([rowZero].filter (matchesAllFilters none none none none)).map
            (·.overall_rating)) = 0 then none
        else some (specMean (([rowZero].filter (matchesAllFilters none none none none)).map
            (·.overall_rating)))) :=
  ⟨(C3_stats [rowZero] none none none).1,
    ((C3_stats [rowZero] none none none).2.2 (by decide)).1⟩

/-- C5 counterexample: providing the empty string as `professor_name` filter
is treated as "no filter" by the truthiness check, so a review whose
professor is "Alice" is returned even though its professor name does not
equal the provided filter case-insensitively. -/
theorem C5_counterexample :
    filter_reviews [rowZero] (some "") none none none 0 100 = [rowZero]
    ∧ rowZero.professor_name = some "Alice"
    ∧ pyLower "Alice" ≠ pyLower "" := by
  have hfil : List.filter (rowMatches (some "") none none none) [rowZero]
      = [rowZero] := by decide
  refine ⟨?_, rfl, by decide⟩
  unfold filter_reviews
  rw [hfil, List.mergeSort_singleton, List.drop_zero,
    List.take_of_length_le (by simp)]

/-- C5 (amended): `filter_reviews` returns exactly the slice
`[skip, skip+limit)` of the reviews matching every provided non-empty filter
case-insensitively (`user_id` exactly; an empty-string name filter is treated
as absent), in the listing sort order; in particular at most `limit` reviews
are returned and every returned review matches all provided filters. -/
theorem C5_filter (reviews : List ReviewRow)
    (pn cc un uid : Option String) (skip limit : Nat) :
    filter_reviews reviews pn cc un uid skip limit
        = (((reviews.filter (matchesAllFilters pn cc un uid)).mergeSort
            revLE).drop skip).take limit
    ∧ (filter_reviews reviews pn cc un uid skip limit).length ≤ limit
    ∧ ∀ r ∈ filter_reviews reviews pn cc un uid skip limit,
        matchesAllFilters pn cc un uid r = true := by
  have hm : reviews.filter (rowMatches pn cc un uid)
      = reviews.filter (matchesAllFilters pn cc un uid) :=
    List.filter_congr (fun a _ => rowMatches_eq pn cc un uid a)
  unfold filter_reviews
  rw [hm]
  refine ⟨rfl, List.length_take_le _ _, ?_⟩
  intro r hr
  have h1 : r ∈ (reviews.filter (matchesAllFilters pn cc un uid)).mergeSort revLE :=
    List.mem_of_mem_drop (List.mem_of_mem_take hr)
  exact (List.mem_filter.mp (List.mem_mergeSort.mp h1)).2

theorem C5_filter_witness :
    filter_reviews [rowZero] none none none none 0 100
        = ((([rowZero].filter (matchesAllFilters none none none none)).mergeSort
            revLE).drop 0).take 100
    ∧ matchesAllFilters none none none none rowZero = true :=
  ⟨(C5_filter [rowZero] none none none none 0 100).1,
    (C5_filter [rowZero] none none none none 0 100).2.2 rowZero (by
      have hfil : List.filter (rowMatches none none none none) [rowZero]
          = [rowZero] := by decide
      unfold filter_reviews
      rw [hfil, List.mergeSort_singleton, List.drop_zero,
        List.take_of_length_le (by simp)]
      exact List.mem_singleton.mpr rfl)⟩

/-- C1: on `PUT`/`DELETE /reviews/{id}`, a missing review gives 404 with the
store unchanged; an existing review owned by someone else (or by nobody)
gives 403 with the store unchanged; only when the caller owns the review is
the storage update (respectively delete) applied. -/
theorem C1_ownership (store : List ReviewRow) (review_id : Nat)
    (p : ReviewUpdate) (uid : String) (now : Nat) :
    (getRow store review_id = none →
      update_review_endpoint store review_id p uid now = (.error 404, store)
      ∧ delete_review_endpoint store review_id uid = (.error 404, store))
    ∧ (∀ r, getRow store review_id = some r → r.user_id ≠ some uid →
      update_review_endpoint store review_id p uid now = (.error 403, store)
      ∧ delete_review_endpoint store review_id uid = (.error 403, store))
    ∧ (∀ r, getRow store review_id = some r → r.user_id = some uid →
      update_review_endpoint store review_id p uid now
          = (.ok (applyUpdate r p now),
            updateFirst (fun x => x.id == review_id)
              (fun x => applyUpdate x p now) store)
      ∧ delete_review_endpoint store review_id uid
          = (.ok (), store.eraseP (fun x => x.id == review_id))) := by
  refine ⟨?_, ?_, ?_⟩
  · intro h
    unfold update_review_endpoint delete_review_endpoint
    simp only [h]
    exact ⟨trivial, trivial⟩
  · intro r hr hne
    unfold update_review_endpoint delete_review_endpoint
    simp only [hr, if_pos hne]
    exact ⟨trivial, trivial⟩
  · intro r hr heq
    unfold update_review_endpoint delete_review_endpoint storageUpdate storageDelete
    simp only [hr, if_neg (show ¬(r.user_id ≠ some uid) by simp [heq])]
    exact ⟨trivial, trivial⟩

theorem C1_ownership_witness :
    (update_review_endpoint [] 1 noUpdate "u1" 5 = (.error 404, [])
      ∧ delete_review_endpoint [] 1 "u1" = (.error 404, []))
    ∧ (update_review_endpoint [rowOwned] 7 noUpdate "u2" 5 = (.error 403, [rowOwned])
      ∧ delete_review_endpoint [rowOwned] 7 "u2" = (.error 403, [rowOwned]))
    ∧ (update_review_endpoint [rowOwned] 7 noUpdate "u1" 5
        = (.ok (applyUpdate rowOwned noUpdate 5),
          updateFirst (fun x => x.id == 7) (fun x => applyUpdate x noUpdate 5)
            [rowOwned])
      ∧ delete_review_endpoint [rowOwned] 7 "u1"
        = (.ok (), [rowOwned].eraseP (fun x => x.id == 7))) :=
  ⟨(C1_ownership [] 1 noUpdate "u1" 5).1 rfl,
    (C1_ownership [rowOwned] 7 noUpdate "u2" 5).2.1 rowOwned (by decide) (by decide),
    (C1_ownership [rowOwned] 7 noUpdate "u1" 5).2.2 rowOwned (by decide) (by decide)⟩

theorem updateFirst_getElem? {α : Type} (p : α → Bool) (f : α → α)
    (l : List α) (i : Nat)
    (h : ∀ a, l[i]? = some a → p a = false) :
    (updateFirst p f l)[i]? = l[i]? := by
  induction l generalizing i with
  | nil => rfl
  | cons a as ih =>
    unfold updateFirst
    by_cases hpa : p a
    · rw [if_pos hpa]
      rcases i with _ | n
      · exact absurd (h a (by simp)) (by simp [hpa])
      · simp
    · rw [if_neg hpa]
      rcases i with _ | n
      · simp
      · simpa using ih n (fun b hb => h b (by simpa using hb))

/-- C10: updating a review (both `ReviewStorage.update` and
`DataStore.update_review`) never changes its `id`, `user_id`, `course_code`,
`course_name`, `university`(`_name`) or `created_at`; every updatable field
left unset in the payload keeps its value (only set fields plus `updated_at`
may differ); and every stored review with a different id is unchanged, at its
position. -/
theorem C10_update_frame :
    (∀ (r : ReviewRow) (p : ReviewUpdate) (now : Nat),
      (applyUpdate r p now).id = r.id
      ∧ (applyUpdate r p now).user_id = r.user_id
      ∧ (applyUpdate r p now).course_code = r.course_code
      ∧ (applyUpdate r p now).course_name = r.course_name
      ∧ (applyUpdate r p now).university_name = r.university_name
      ∧ (applyUpdate r p now).created_at = r.created_at
      ∧ (p.overall_rating = none →
          (applyUpdate r p now).overall_rating = r.overall_rating)
      ∧ (p.difficulty_rating = none →
          (applyUpdate r p now).difficulty_rating = r.difficulty_rating)
      ∧ (p.workload_rating = none →
          (applyUpdate r p now).workload_rating = r.workload_rating)
      ∧ (p.comment = none → (applyUpdate r p now).comment = r.comment)
      ∧ (p.semester = none → (applyUpdate r p now).semester = r.semester)
      ∧ (p.year = none → (applyUpdate r p now).year = r.year)
      ∧ (p.professor_name = none →
          (applyUpdate r p now).professor_name = r.professor_name))
    ∧ (∀ (r : PyReview) (p : ReviewUpdate) (now : Nat),
      (applyUpdatePy r p now).id = r.id
      ∧ (applyUpdatePy r p now).user_id = r.user_id
      ∧ (applyUpdatePy r p now).course_code = r.course_code
      ∧ (applyUpdatePy r p now).course_name = r.course_name
      ∧ (applyUpdatePy r p now).university = r.university
      ∧ (applyUpdatePy r p now).created_at = r.created_at
      ∧ (p.overall_rating = none →
          (applyUpdatePy r p now).overall_rating = r.overall_rating)
      ∧ (p.difficulty_rating = none →
          (applyUpdatePy r p now).difficulty_rating = r.difficulty_rating)
      ∧ (p.workload_rating = none →
          (applyUpdatePy r p now).workload_rating = r.workload_rating)
      ∧ (p.comment = none → (applyUpdatePy r p now).comment = r.comment)
      ∧ (p.semester = none → (applyUpdatePy r p now).semester = r.semester)
      ∧ (p.year = none → (applyUpdatePy r p now).year = r.year)
      ∧ (p.professor_name = none →
          (applyUpdatePy r p now).professor_name = r.professor_name))
    ∧ (∀ (store : List ReviewRow) (rid : Nat) (p : ReviewUpdate) (now : Nat)
        (i : Nat) (a : ReviewRow), store[i]? = some a → a.id ≠ rid →
        (storageUpdate store rid p now).2[i]? = some a)
    ∧ (∀ (ds : DataStore) (rid : Nat) (p : ReviewUpdate) (now : Nat)
        (i : Nat) (a : PyReview), ds.reviews[i]? = some a → a.id ≠ rid →
        (ds.update_review rid p now).2.reviews[i]? = some a) := by
  refine ⟨?_, ?_, ?_, ?_⟩
  · intro r p now
    refine ⟨rfl, rfl, rfl, rfl, rfl, rfl, ?_, ?_, ?_, ?_, ?_, ?_, ?_⟩ <;>
      intro h <;> simp [applyUpdate, h]
  · intro r p now
    refine ⟨rfl, rfl, rfl, rfl, rfl, rfl, ?_, ?_, ?_, ?_, ?_, ?_, ?_⟩ <;>
      intro h <;> simp [applyUpdatePy, h]
  · intro store rid p now i a ha hne
    unfold storageUpdate
    rcases hget : getRow store rid with _ | r <;> simp only [hget]
    · exact ha
    · have he : (updateFirst (fun x => x.id == rid)
          (fun x => applyUpdate x p now) store)[i]? = store[i]? := by
        refine updateFirst_getElem? _ _ store i (fun b hb => ?_)
        rw [hb] at ha
        simp only [Option.some_inj] at ha
        subst ha
        simp [hne]
      rw [he]
      exact ha
  · intro ds rid p now i a ha hne
    unfold DataStore.update_review
    rcases hget : ds.reviews.find? (fun r => r.id == rid) with _ | r <;>
      simp only [hget]
    · exact ha
    · have he : (updateFirst (fun x => x.id == rid)
          (fun x => applyUpdatePy x p now) ds.reviews)[i]? = ds.reviews[i]? := by
        refine updateFirst_getElem? _ _ ds.reviews i (fun b hb => ?_)
        rw [hb] at ha
        simp only [Option.some_inj] at ha
        subst ha
        simp [hne]
      rw [he]
      exact ha

theorem C10_update_frame_witness :
    (applyUpdate rowZero noUpdate 5).course_code = rowZero.course_code
    ∧ (applyUpdate rowZero noUpdate 5).overall_rating = rowZero.overall_rating
    ∧ (applyUpdatePy pyRev4 noUpdate 5).university = pyRev4.university
    ∧ (storageUpdate [rowOwned] 3 noUpdate 5).2[0]? = some rowOwned
    ∧ (dsStats.update_review 9 noUpdate 5).2.reviews[0]? = some pyRev4 :=
  ⟨(C10_update_frame.1 rowZero noUpdate 5).2.2.1,
    (C10_update_frame.1 rowZero noUpdate 5).2.2.2.2.2.2.1 rfl,
    (C10_update_frame.2.1 pyRev4 noUpdate 5).2.2.2.2.1,
    C10_update_frame.2.2.1 [rowOwned] 3 noUpdate 5 0 rowOwned (by decide) (by decide),
    C10_update_frame.2.2.2 dsStats 9 noUpdate 5 0 pyRev4 (by decide) (by decide)⟩

/-- C4 counterexample: the reachable `DataStore` state obtained by
`clear_all_data`; `create_university "NUS"`; `create_course CS101` lists one
course while holding no review at all, so the listed collections are not
derived by grouping the reviews and a listed course need not correspond to
any review. -/
theorem C4_counterexample :
    dsCex.get_all_courses.length = 1
    ∧ dsCex.get_all_reviews = []
    ∧ ¬(∀ c ∈ dsCex.get_all_courses, ∃ r ∈ dsCex.get_all_reviews,
        pyLower r.course_code = pyLower c.code) := by
  decide

/-- C4 (amended): the in-memory `DataStore` stores courses, professors and
universities directly in their own collections: the read operations return
the stored collections as they are, creating a review leaves those
collections unchanged, and creating a course/professor/university leaves the
reviews unchanged — so a listed entity need not correspond to any review. -/
theorem C4_stored_entities (ds : DataStore) (r_in : ReviewCreate)
    (uid : Option String) (now : Nat) (c_in : CourseCreate)
    (p_in : ProfessorCreate) (u_in : UniversityCreate) :
    ds.get_all_courses = ds.courses
    ∧ ds.get_all_professors = ds.professors
    ∧ ds.get_all_universities = ds.universities
    ∧ (ds.create_review r_in uid now).2.courses = ds.courses
    ∧ (ds.create_review r_in uid now).2.professors = ds.professors
    ∧ (ds.create_review r_in uid now).2.universities = ds.universities
    ∧ (∀ c ds2, ds.create_course c_in = some (c, ds2) → ds2.reviews = ds.reviews)
    ∧ (∀ p ds2, ds.create_professor p_in = some (p, ds2) → ds2.reviews = ds.reviews)
    ∧ (ds.create_university u_in).2.reviews = ds.reviews := by
  refine ⟨rfl, rfl, rfl, rfl, rfl, rfl, ?_, ?_, rfl⟩
  · intro c ds2 h
    unfold DataStore.create_course at h
    rcases hu : ds.get_university c_in.university_id with _ | u <;>
      simp only [hu] at h
    · exact absurd h (by simp)
    · injection h with h2
      injection h2 with ha hb
      rw [← hb]
  · intro p ds2 h
    unfold DataStore.create_professor at h
    rcases hu : ds.get_university p_in.university_id with _ | u <;>
      simp only [hu] at h
    · exact absurd h (by simp)
    · injection h with h2
      injection h2 with ha hb
      rw [← hb]

theorem C4_stored_entities_witness :
    dsUni.get_all_courses = dsUni.courses
    ∧ dsCex.reviews = dsUni.reviews :=
  ⟨(C4_stored_entities dsUni rcSample none 0 ⟨"CS101", "Intro to CS", 1⟩
      ⟨"Alice", 1⟩ ⟨"NUS"⟩).1,
    (C4_stored_entities dsUni rcSample none 0 ⟨"CS101", "Intro to CS", 1⟩
      ⟨"Alice", 1⟩ ⟨"NUS"⟩).2.2.2.2.2.2.1
      { id := 1, code := "CS101", name := "Intro to CS", university_id := 1
        university := "NUS", review_count := 0 }
      dsCex (by decide)⟩

theorem distFold_counts (m : List PyReview) (acc : Distribution) :
    (m.foldl (fun a r => distStep a r.overall_rating) acc).d5
        = acc.d5 + (m.filter (fun r => r.overall_rating == 5)).length
    ∧ (m.foldl (fun a r => distStep a r.overall_rating) acc).d4
        = acc.d4 + (m.filter (fun r => r.overall_rating == 4)).length
    ∧ (m.foldl (fun a r => distStep a r.overall_rating) acc).d3
        = acc.d3 + (m.filter (fun r => r.overall_rating == 3)).length
    ∧ (m.foldl (fun a r => distStep a r.overall_rating) acc).d2
        = acc.d2 + (m.filter (fun r => r.overall_rating == 2)).length
    ∧ (m.foldl (fun a r => distStep a r.overall_rating) acc).d1
        = acc.d1 + (m.filter (fun r => r.overall_rating == 1)).length := by
  induction m generalizing acc with
  | nil => simp
  | cons a as ih =>
    simp only [List.foldl_cons, List.filter_cons]
    have h := ih (distStep acc a.overall_rating)
    refine ⟨?_, ?_, ?_, ?_, ?_⟩
    · rw [h.1]
      unfold distStep
      split_ifs <;> simp_all <;> omega
    · rw [h.2.1]
      unfold distStep
      split_ifs <;> simp_all <;> omega
    · rw [h.2.2.1]
      unfold distStep
      split_ifs <;> simp_all <;> omega
    · rw [h.2.2.2.1]
      unfold distStep
      split_ifs <;> simp_all <;> omega
    · rw [h.2.2.2.2]
      unfold distStep
      split_ifs <;> simp_all <;> omega

theorem computeDist_counts (m : List PyReview) :
    (computeDist m).d5 = (m.filter (fun r => r.overall_rating == 5)).length
    ∧ (computeDist m).d4 = (m.filter (fun r => r.overall_rating == 4)).length
    ∧ (computeDist m).d3 = (m.filter (fun r => r.overall_rating == 3)).length
    ∧ (computeDist m).d2 = (m.filter (fun r => r.overall_rating == 2)).length
    ∧ (computeDist m).d1 = (m.filter (fun r => r.overall_rating == 1)).length := by
  have h := distFold_counts m ⟨0, 0, 0, 0, 0⟩
  simpa [computeDist] using h

/-- C6: in `get_professor_stats` and `get_course_stats`, when the entity
exists: `total_reviews` is the number of matching reviews; each distribution
bucket k in 1..5 counts the matching reviews whose (integer) overall rating
equals k; with at least one matching review each average equals the
arithmetic mean of the corresponding rating rounded to 2 decimal places;
with none, the count is 0, every bucket is 0 and every average is None. -/
theorem C6_rating_stats :
    (∀ (ds : DataStore) (pid : Nat) (prof : Professor),
      ds.get_professor pid = some prof →
      ∃ st, get_professor_stats ds pid = .ok st
        ∧ st.total_reviews = (ds.reviews.filter (profReviewMatches prof.name)).length
        ∧ st.rating_distribution.d5 = ((ds.reviews.filter (profReviewMatches prof.name)).filter
            (fun r => r.overall_rating == 5)).length
        ∧ st.rating_distribution.d4 = ((ds.reviews.filter (profReviewMatches prof.name)).filter
            (fun r => r.overall_rating == 4)).length
        ∧ st.rating_distribution.d3 = ((ds.reviews.filter (profReviewMatches prof.name)).filter
            (fun r => r.overall_rating == 3)).length
        ∧ st.rating_distribution.d2 = ((ds.reviews.filter (profReviewMatches prof.name)).filter
            (fun r => r.overall_rating == 2)).length
        ∧ st.rating_distribution.d1 = ((ds.reviews.filter (profReviewMatches prof.name)).filter
            (fun r => r.overall_rating == 1)).length
        ∧ ((ds.reviews.filter (profReviewMatches prof.name)).length ≠ 0 →
            st.average_overall_rating = some (pyRound2 (specMean
              ((ds.reviews.filter (profReviewMatches prof.name)).map (·.overall_rating))))
            ∧ st.average_difficulty_rating = some (pyRound2 (specMean
              ((ds.reviews.filter (profReviewMatches prof.name)).map (·.difficulty_rating))))
            ∧ st.average_workload_rating = some (pyRound2 (specMean
              ((ds.reviews.filter (profReviewMatches prof.name)).map (·.workload_rating)))))
        ∧ ((ds.reviews.filter (profReviewMatches prof.name)).length = 0 →
            st.total_reviews = 0
            ∧ st.average_overall_rating = none
            ∧ st.average_difficulty_rating = none
            ∧ st.average_workload_rating = none
            ∧ st.rating_distribution = ⟨0, 0, 0, 0, 0⟩))
    ∧ (∀ (ds : DataStore) (cid : Nat) (course : Course),
      ds.get_course cid = some course →
      ∃ st, get_course_stats ds cid = .ok st
        ∧ st.total_reviews = (ds.reviews.filter
            (courseReviewMatches course.code course.university)).length
        ∧ st.rating_distribution.d5 = ((ds.reviews.filter
            (courseReviewMatches course.code course.university)).filter
            (fun r => r.overall_rating == 5)).length
        ∧ st.rating_distribution.d4 = ((ds.reviews.filter
            (courseReviewMatches course.code course.university)).filter
            (fun r => r.overall_rating == 4)).length
        ∧ st.rating_distribution.d3 = ((ds.reviews.filter
            (courseReviewMatches course.code course.university)).filter
            (fun r => r.overall_rating == 3)).length
        ∧ st.rating_distribution.d2 = ((ds.reviews.filter
            (courseReviewMatches course.code course.university)).filter
            (fun r => r.overall_rating == 2)).length
        ∧ st.rating_distribution.d1 = ((ds.reviews.filter
            (courseReviewMatches course.code course.university)).filter
            (fun r => r.overall_rating == 1)).length
        ∧ ((ds.reviews.filter (courseReviewMatches course.code course.university)).length ≠ 0 →
            st.average_overall_rating = some (pyRound2 (specMean
              ((ds.reviews.filter (courseReviewMatches course.code course.university)).map
                (·.overall_rating))))
            ∧ st.average_difficulty_rating = some (pyRound2 (specMean
              ((ds.reviews.filter (courseReviewMatches course.code course.university)).map
                (·.difficulty_rating))))
            ∧ st.average_workload_rating = some (pyRound2 (specMean
              ((ds.reviews.filter (courseReviewMatches course.code course.university)).map
                (·.workload_rating)))))
        ∧ ((ds.reviews.filter (courseReviewMatches course.code course.university)).length = 0 →
            st.total_reviews = 0
            ∧ st.average_overall_rating = none
            ∧ st.average_difficulty_rating = none
            ∧ st.average_workload_rating = none
            ∧ st.rating_distribution = ⟨0, 0, 0, 0, 0⟩)) := by
  constructor
  · intro ds pid prof h
    unfold get_professor_stats
    simp only [h]
    by_cases hlen : (ds.reviews.filter (profReviewMatches prof.name)).length = 0
    · rw [if_pos hlen]
      have hm0 : ds.reviews.filter (profReviewMatches prof.name) = [] :=
        List.length_eq_zero.mp hlen
      refine ⟨_, rfl, hlen.symm, ?_, ?_, ?_, ?_, ?_, ?_, ?_⟩
      · simp [hm0]
      · simp [hm0]
      · simp [hm0]
      · simp [hm0]
      · simp [hm0]
      · exact fun hpos => absurd hlen hpos
      · exact fun _ => ⟨rfl, rfl, rfl, rfl, rfl⟩
    · rw [if_neg hlen]
      have hd := computeDist_counts (ds.reviews.filter (profReviewMatches prof.name))
      refine ⟨_, rfl, rfl, hd.1, hd.2.1, hd.2.2.1, hd.2.2.2.1, hd.2.2.2.2, ?_, ?_⟩
      · intro _
        refine ⟨?_, ?_, ?_⟩ <;> simp only [specMean, List.length_map]
      · exact fun h0 => absurd h0 hlen
  · intro ds cid course h
    unfold get_course_stats
    simp only [h]
    by_cases hlen : (ds.reviews.filter
        (courseReviewMatches course.code course.university)).length = 0
    · rw [if_pos hlen]
      have hm0 : ds.reviews.filter (courseReviewMatches course.code course.university) = [] :=
        List.length_eq_zero.mp hlen
      refine ⟨_, rfl, hlen.symm, ?_, ?_, ?_, ?_, ?_, ?_, ?_⟩
      · simp [hm0]
      · simp [hm0]
      · simp [hm0]
      · simp [hm0]
      · simp [hm0]
      · exact fun hpos => absurd hlen hpos
      · exact fun _ => ⟨rfl, rfl, rfl, rfl, rfl⟩
    · rw [if_neg hlen]
      have hd := computeDist_counts (ds.reviews.filter
        (courseReviewMatches course.code course.university))
      refine ⟨_, rfl, rfl, hd.1, hd.2.1, hd.2.2.1, hd.2.2.2.1, hd.2.2.2.2, ?_, ?_⟩
      · intro _
        refine ⟨?_, ?_, ?_⟩ <;> simp only [specMean, List.length_map]
      · exact fun h0 => absurd h0 hlen

theorem C6_rating_stats_witness :
    (∃ st, get_professor_stats dsStats 1 = .ok st
      ∧ st.total_reviews = (dsStats.reviews.filter (profReviewMatches profAlice.name)).length)
    ∧ (∃ st, get_course_stats dsStats 1 = .ok st
      ∧ st.total_reviews = (dsStats.reviews.filter
          (courseReviewMatches courseCS.code courseCS.university)).length) := by
  constructor
  · obtain ⟨st, h1, h2, _⟩ := C6_rating_stats.1 dsStats 1 profAlice (by decide)
    exact ⟨st, h1, h2⟩
  · obtain ⟨st, h1, h2, _⟩ := C6_rating_stats.2 dsStats 1 courseCS (by decide)
    exact ⟨st, h1, h2⟩

/-- C7: once the JWKS cache is populated, `get_cognito_public_keys` returns
the cached key list and leaves the cache unchanged regardless of the
configuration and of the network; every successful call leaves the cache
holding exactly the returned keys; hence after any successful call, every
later call returns the same keys and the same state without consulting the
fetch result. -/
theorem C7_jwks_cache :
    (∀ (ks : List JWK) (cfg : Bool) (fetched : Option (List JWK)),
      get_cognito_public_keys ⟨some ks⟩ cfg fetched = (.ok ks, ⟨some ks⟩))
    ∧ (∀ (st : KeysState) (cfg : Bool) (fetched : Option (List JWK))
        (ks : List JWK) (st2 : KeysState),
      get_cognito_public_keys st cfg fetched = (.ok ks, st2) → st2.cache = some ks)
    ∧ (∀ (st : KeysState) (cfg : Bool) (fetched : Option (List JWK))
        (ks : List JWK) (st2 : KeysState) (cfg2 : Bool)
        (fetched2 : Option (List JWK)),
      get_cognito_public_keys st cfg fetched = (.ok ks, st2) →
      get_cognito_public_keys st2 cfg2 fetched2 = (.ok ks, st2)) := by
  have h1 : ∀ (ks : List JWK) (cfg : Bool) (fetched : Option (List JWK)),
      get_cognito_public_keys ⟨some ks⟩ cfg fetched = (.ok ks, ⟨some ks⟩) := by
    intro ks cfg fetched
    rfl
  have h2 : ∀ (st : KeysState) (cfg : Bool) (fetched : Option (List JWK))
      (ks : List JWK) (st2 : KeysState),
      get_cognito_public_keys st cfg fetched = (.ok ks, st2) →
      st2.cache = some ks := by
    intro st cfg fetched ks st2 h
    rcases st with ⟨_ | c⟩
    · unfold get_cognito_public_keys at h
      by_cases hcfg : cfg = false
      · rw [if_pos hcfg] at h
        exact absurd h (by simp)
      · rw [if_neg hcfg] at h
        rcases fetched with _ | kss
        · exact absurd h (by simp)
        · simp only [Prod.mk.injEq, Except.ok.injEq] at h
          obtain ⟨he, hst⟩ := h
          rw [← hst, he]
    · unfold get_cognito_public_keys at h
      simp only [Prod.mk.injEq, Except.ok.injEq] at h
      obtain ⟨he, hst⟩ := h
      rw [← hst, ← he]
  refine ⟨h1, h2, ?_⟩
  intro st cfg fetched ks st2 cfg2 fetched2 h
  have hc := h2 st cfg fetched ks st2 h
  rcases st2 with ⟨c2⟩
  have hc2 : c2 = some ks := hc
  subst hc2
  exact h1 ks cfg2 fetched2

theorem C7_jwks_cache_witness :
    get_cognito_public_keys ⟨some []⟩ true none = (.ok [], ⟨some []⟩)
    ∧ (⟨some []⟩ : KeysState).cache = some [] :=
  ⟨C7_jwks_cache.1 [] true none,
    C7_jwks_cache.2.1 ⟨some []⟩ true none [] ⟨some []⟩
      (C7_jwks_cache.1 [] true none)⟩

/-- C8: every authenticated caller has a non-empty `user_id` (tokens whose
`sub` is missing or empty are rejected by `get_current_user`), and an
existing review whose `user_id` is NULL makes both the update and the delete
endpoint answer 403 and leave the store unchanged, for every caller. -/
theorem C8_anonymous_reviews_immutable :
    (∀ (auth : Option String) (verify : String → Except Nat TokenPayload)
        (u : UserInfo),
      get_current_user auth verify = .ok u → u.user_id ≠ "")
    ∧ (∀ (store : List ReviewRow) (review_id : Nat) (p : ReviewUpdate)
        (uid : String) (now : Nat) (r : ReviewRow),
      uid ≠ "" → getRow store review_id = some r → r.user_id = none →
        update_review_endpoint store review_id p uid now = (.error 403, store)
        ∧ delete_review_endpoint store review_id uid = (.error 403, store)) := by
  constructor
  · intro auth verify u h
    rcases auth with _ | a
    · simp only [get_current_user] at h
      exact absurd h (by simp)
    · simp only [get_current_user] at h
      by_cases ha : a = ""
      · rw [if_pos ha] at h
        exact absurd h (by simp)
      · rw [if_neg ha] at h
        rcases hsp : splitMax1 a with _ | ⟨scheme, token⟩ <;>
          simp only [hsp] at h
        · exact absurd h (by simp)
        · by_cases hsc : pyLower scheme ≠ "bearer"
          · rw [if_pos hsc] at h
            exact absurd h (by simp)
          · rw [if_neg hsc] at h
            rcases hv : verify token with e | payload <;> simp only [hv] at h
            · exact absurd h (by simp)
            · rcases hsub : payload.sub with _ | s <;> simp only [hsub] at h
              · exact absurd h (by simp)
              · by_cases hs : s = ""
                · rw [if_pos hs] at h
                  exact absurd h (by simp)
                · rw [if_neg hs] at h
                  simp only [Except.ok.injEq] at h
                  rw [← h]
                  exact hs
  · intro store review_id p uid now r hu hget hanon
    unfold update_review_endpoint delete_review_endpoint
    simp only [hget, if_pos (show r.user_id ≠ some uid by simp [hanon])]
    exact ⟨trivial, trivial⟩

theorem C8_anonymous_reviews_immutable_witness :
    ((⟨"u1", none, none, false, none⟩ : UserInfo).user_id ≠ "")
    ∧ (update_review_endpoint [rowAnon] 9 noUpdate "u1" 3 = (.error 403, [rowAnon])
      ∧ delete_review_endpoint [rowAnon] 9 "u1" = (.error 403, [rowAnon])) :=
  ⟨C8_anonymous_reviews_immutable.1 (some "Bearer tok")
      (fun _ => .ok ⟨some "u1", none, none, false, none⟩)
      ⟨"u1", none, none, false, none⟩ (by rfl),
    C8_anonymous_reviews_immutable.2 [rowAnon] 9 noUpdate "u1" 3 rowAnon
      (by decide) (by decide) (by decide)⟩

/-- C9: `get_optional_user` is total over the header: it returns the user
information exactly when `get_current_user` succeeds, and None exactly when
`get_current_user` raises an HTTP error — no authentication error escapes. -/
theorem C9_optional_user_total (auth : Option String)
    (verify : String → Except Nat TokenPayload) :
    (∀ u, get_optional_user auth verify = some u ↔
      get_current_user auth verify = .ok u)
    ∧ (get_optional_user auth verify = none ↔
      ∃ e, get_current_user auth verify = .error e) := by
  rcases auth with _ | a
  · refine ⟨fun u => ?_, ?_⟩ <;> simp [get_optional_user, get_current_user]
  · by_cases ha : a = ""
    · subst ha
      refine ⟨fun u => ?_, ?_⟩ <;> simp [get_optional_user, get_current_user]
    · have ho : get_optional_user (some a) verify
          = (match get_current_user (some a) verify with
            | .ok u => some u
            | .error _ => none) := by
        simp [get_optional_user, ha]
      rcases hg : get_current_user (some a) verify with e | u2
      · refine ⟨fun u => ?_, ?_⟩ <;> rw [ho, hg] <;> simp
      · refine ⟨fun u => ?_, ?_⟩ <;> rw [ho, hg] <;> simp

end CourseRate
